import Mathlib

/-!
# Shallow embedding of the FIT_MIRROR mobile front-end

This file embeds the screen-level logic of the FitMirrorApp React Native
front-end (ChatScreen.tsx, WorkoutsScreen.tsx, ProfileScreen.tsx) as pure
Lean functions.  Network I/O is modelled by passing the outcome of each
fetch as an explicit argument; React `useState` state is modelled as
explicit state records, and each handler becomes a function from the
pre-state (plus the fetch outcome) to the post-state together with the
user-visible effects it produces (alert boxes shown, requests issued).
-/

/-! ## JavaScript string primitives used by the screens -/

/-- The character class `[*_#\x60]` of the sanitising regex in
`ChatScreen.sendMessage` (codepoint 96 is the backquote). -/
def isMdChar (c : Char) : Bool :=
  c == '*' || c == '_' || c == '#' || c.toNat == 96

/-- `errorMessage.replace(/[*_#\x60]/g, '')`: delete every occurrence of the
four Markdown marker characters. -/
def removeMdChars (s : String) : String :=
  String.mk (s.data.filter (fun c => !isMdChar c))

/-- The JavaScript `\s` / `String.trim` whitespace class. -/
def isJsWhitespace (c : Char) : Bool :=
  let n := c.toNat
  n == 9 || n == 10 || n == 11 || n == 12 || n == 13 || n == 32 || n == 160 ||
  n == 5760 || (8192 ≤ n && n ≤ 8202) || n == 8232 || n == 8233 ||
  n == 8239 || n == 8287 || n == 12288 || n == 65279

/-- JavaScript `String.prototype.trim`. -/
def jsTrim (s : String) : String :=
  String.mk (((s.data.dropWhile isJsWhitespace).reverse.dropWhile isJsWhitespace).reverse)

/-- JavaScript truthiness of an optional string value (`undefined`, `null`
and `""` are falsy, every other string is truthy). -/
def jsTruthy : Option String → Bool
  | none => false
  | some s => !s.isEmpty

/-! ## The Markdown-stripping render chain of `ChatScreen`

`ChatScreen` renders every non-loading message through five chained
`String.replace` calls (ChatScreen.tsx lines 269-274).  We embed the exact
JavaScript regex semantics: global left-to-right scanning, lazy `(.*?)`
(shortest match first), `.` not matching line terminators, `\s` matching
line terminators (so a `\s+` run may cross line breaks), and the `m`-flag
anchor `^` matching at the start of the string and immediately after every
line terminator (`\n`, `\r`, and the codepoints 8232 and 8233). -/

/-- The JavaScript line terminators: exactly the characters `.` does not
match and the `m`-flag anchors honour as line boundaries. -/
def dotExcluded (c : Char) : Bool :=
  c == '\n' || c == '\r' || c.toNat == 8232 || c.toNat == 8233

/-- Lazy search for the closing delimiter: splits `cs` as `mid ++ delim ++ rest`
with the shortest possible `mid` whose characters are all matched by `.`.
Mirrors the `(.*?)\1` part of the bold/italic regexes. -/
def lazyClose (delim : List Char) : List Char → Option (List Char × List Char)
  | [] => if delim.isPrefixOf ([] : List Char) then some ([], []) else none
  | c :: cs =>
    if delim.isPrefixOf (c :: cs) then some ([], (c :: cs).drop delim.length)
    else if dotExcluded c then none
    else (lazyClose delim cs).map (fun p => (c :: p.1, p.2))

/-- One global pass of `replace(/(d1|d2)(.*?)\1/g, '$2')` over a character
list.  `fuel` bounds the recursion (each step consumes at least one input
character, so `cs.length` fuel always suffices). -/
def stripPairedAux (d1 d2 : List Char) : Nat → List Char → List Char
  | _, [] => []
  | 0, cs => cs
  | fuel + 1, c :: cs =>
    if d1.isPrefixOf (c :: cs) then
      match lazyClose d1 ((c :: cs).drop d1.length) with
      | some (mid, rest) => mid ++ stripPairedAux d1 d2 fuel rest
      | none => c :: stripPairedAux d1 d2 fuel cs
    else if d2.isPrefixOf (c :: cs) then
      match lazyClose d2 ((c :: cs).drop d2.length) with
      | some (mid, rest) => mid ++ stripPairedAux d1 d2 fuel rest
      | none => c :: stripPairedAux d1 d2 fuel cs
    else c :: stripPairedAux d1 d2 fuel cs

/-- `s.replace(/(d1|d2)(.*?)\1/g, '$2')`. -/
def stripPaired (d1 d2 : List Char) (s : String) : String :=
  String.mk (stripPairedAux d1 d2 s.data.length s.data)

/-- Match of `/^(#+)\s+(.*)$/` at a `^`-position: greedy maximal `#` run,
then a maximal `\s+` run (which may contain line terminators, since they
are whitespace), then `.*` up to the next line terminator, where `$` always
holds.  Greediness needs no backtracking here: shortening the `#` or
whitespace runs only re-exposes the same character class, and after a
maximal whitespace run the next character is never a terminator, so
`(.*)$` always succeeds.  Returns the replacement `$2` and the unconsumed
suffix. -/
def headingMatchAt (cs : List Char) : Option (List Char × List Char) :=
  let hashes := cs.takeWhile (fun c => c == '#')
  if hashes.isEmpty then none
  else
    let afterHashes := cs.drop hashes.length
    let ws := afterHashes.takeWhile isJsWhitespace
    if ws.isEmpty then none
    else
      let afterWs := afterHashes.drop ws.length
      let restOfLine := afterWs.takeWhile (fun c => !dotExcluded c)
      some (restOfLine, afterWs.drop restOfLine.length)

/-- Match of `/^[-*+]\s+(.*)$/` at a `^`-position, returning the
replacement `• $1` and the unconsumed suffix. -/
def listMatchAt (cs : List Char) : Option (List Char × List Char) :=
  match cs with
  | [] => none
  | c :: rest =>
    if c == '-' || c == '*' || c == '+' then
      let ws := rest.takeWhile isJsWhitespace
      if ws.isEmpty then none
      else
        let afterWs := rest.drop ws.length
        let restOfLine := afterWs.takeWhile (fun c => !dotExcluded c)
        some ('•' :: ' ' :: restOfLine, afterWs.drop restOfLine.length)
    else none

/-- Match of `/^(\d+)\.\s+(.*)$/` at a `^`-position, returning the
replacement `$1. $2` and the unconsumed suffix (no backtracking into
`\d+` can help, since the character after a maximal digit run is never a
digit). -/
def orderedMatchAt (cs : List Char) : Option (List Char × List Char) :=
  let digits := cs.takeWhile (fun c => c.isDigit)
  if digits.isEmpty then none
  else
    match cs.drop digits.length with
    | '.' :: rest =>
      let ws := rest.takeWhile isJsWhitespace
      if ws.isEmpty then none
      else
        let afterWs := rest.drop ws.length
        let restOfLine := afterWs.takeWhile (fun c => !dotExcluded c)
        some (digits ++ '.' :: ' ' :: restOfLine, afterWs.drop restOfLine.length)
    | _ => none

/-- Global replace for a `^`-anchored `m`-flag regex given its
match-at-one-position function.  `atStart` records whether the current
position is a `^`-position (start of input or just after a line
terminator, including between `\r` and `\n`); a successful match emits the
replacement and resumes after the match — never at a `^`-position, since a
match with a non-empty remainder always ends in a `.*` character.  `fuel`
bounds the recursion (every step consumes at least one input character,
matches consume at least two). -/
def replaceAnchoredAux (matchAt : List Char → Option (List Char × List Char)) :
    Nat → Bool → List Char → List Char
  | _, _, [] => []
  | 0, _, cs => cs
  | fuel + 1, atStart, c :: cs =>
    if atStart then
      match matchAt (c :: cs) with
      | some (repl, rest) => repl ++ replaceAnchoredAux matchAt fuel false rest
      | none => c :: replaceAnchoredAux matchAt fuel (dotExcluded c) cs
    else
      c :: replaceAnchoredAux matchAt fuel (dotExcluded c) cs

/-- `s.replace(R, repl)` for a `^`-anchored regex `R` with the `g` and `m`
flags, described by its match function. -/
def replaceAnchored (matchAt : List Char → Option (List Char × List Char))
    (s : String) : String :=
  String.mk (replaceAnchoredAux matchAt s.data.length true s.data)

/-- The full render transformation of ChatScreen.tsx lines 269-274:
bold, italic, heading, unordered list, ordered list. -/
def renderMarkdown (s : String) : String :=
  replaceAnchored orderedMatchAt
    (replaceAnchored listMatchAt
      (replaceAnchored headingMatchAt
        (stripPaired ['*'] ['_']
          (stripPaired ['*', '*'] ['_', '_'] s))))

/-! ## ChatScreen data model -/

/-- The `ChatMessage` interface of ChatScreen.tsx. -/
structure ChatMsg where
  id : Nat
  sender : String
  message : String
  timestamp : String
  isError : Bool := false
  isWarning : Bool := false
  isLoading : Bool := false
  renderAsPlainText : Bool := false
deriving DecidableEq

/-- What the chat bubble for a message actually shows: loading messages are
shown verbatim, every other message goes through the Markdown-stripping
render chain (the `renderAsPlainText` flag is set by the code but never
consulted by the JSX). -/
def displayedText (m : ChatMsg) : String :=
  if m.isLoading then m.message else renderMarkdown m.message

/-- Body of a `POST /chat` response as consumed by `sendMessage`
(`message` is `none` when the field is absent from the JSON). -/
structure ChatResponse where
  success : Bool
  message : Option String
deriving DecidableEq

/-- Outcome of the `fetch` + `response.json()` pair inside `sendMessage`. -/
inductive ChatFetchOutcome where
  | ok (data : ChatResponse)
  | threw
deriving DecidableEq

/-- Outcome of the `/health` check in `checkApiStatus`:
either a parsed body carrying `agent_status`, or a thrown error. -/
inductive HealthOutcome where
  | ok (agentStatus : String)
  | threw
deriving DecidableEq

/-- The `useState` state of `ChatScreen`, plus bookkeeping for the one-shot
mount effect: `healthPending` records that the `checkApiStatus` callback has
not fired yet, and `healthSnapshot` is the `chatHistory` value captured by
that callback's closure (the state of the first render). -/
structure ChatState where
  message : String
  isLoading : Bool
  apiAvailable : Bool
  chatHistory : List ChatMsg
  healthPending : Bool
  healthSnapshot : List ChatMsg
deriving DecidableEq

def chatWelcomeMsg (ts : String) : ChatMsg :=
  { id := 1, sender := "bot",
    message := "你好！我是你的健身助手，可以为你提供健身指导和建议。请问你需要什么帮助？",
    timestamp := ts }

/-- Initial state of `ChatScreen` (`ts0` is the mount-time timestamp). -/
def chatInit (ts0 : String) : ChatState :=
  { message := "", isLoading := false, apiAvailable := true,
    chatHistory := [chatWelcomeMsg ts0],
    healthPending := true, healthSnapshot := [chatWelcomeMsg ts0] }

def chatUserMsg (id : Nat) (text ts : String) : ChatMsg :=
  { id, sender := "user", message := text, timestamp := ts }

def chatBotReply (id : Nat) (text ts : String) : ChatMsg :=
  { id, sender := "bot", message := text, timestamp := ts }

/-- The temporary "正在思考..." loading message. -/
def chatThinkingMsg (id : Nat) (ts : String) : ChatMsg :=
  { id, sender := "bot", message := "正在思考...", timestamp := ts, isLoading := true }

/-- Error-flagged bot reply (both error paths of `sendMessage` set
`isError` and `renderAsPlainText`). -/
def chatErrorReply (id : Nat) (text ts : String) : ChatMsg :=
  { id, sender := "bot", message := text, timestamp := ts,
    isError := true, renderAsPlainText := true }

/-- The fixed error text of the `catch` branch of `sendMessage`. -/
def chatNetworkErrorText : String :=
  "抱歉，连接服务器时出现问题，请检查网络连接或稍后再试。"

/-- The error text built from a `success=false` response body:
`data.message || '未知错误'`, Markdown markers stripped, behind the fixed
prefix (ChatScreen.tsx lines 169-176). -/
def chatServerErrorText (msg : Option String) : String :=
  let errorMessage := if jsTruthy msg then msg.getD "" else "未知错误"
  "抱歉，处理您的请求时出现问题: " ++ removeMdChars errorMessage

/-- Result of running a ChatScreen handler: the new screen state, the list
of HTTP requests it issued, and the alert boxes it popped up. -/
structure ChatEffect where
  state : ChatState
  requests : List String
  alerts : List String
deriving DecidableEq

/-- `sendMessage` (ChatScreen.tsx lines 102-204), with the outcome of the
`fetch('/chat')` + `json()` pair passed in as `outcome` (ignored when the
function returns before issuing the request).  The JS value `undefined`
stored when a success body lacks `message` is rendered as the string
`"undefined"`. -/
def sendMessage (s : ChatState) (ts : String) (outcome : ChatFetchOutcome) : ChatEffect :=
  if jsTrim s.message = "" then ⟨s, [], []⟩
  else if !s.apiAvailable then ⟨s, [], ["服务不可用"]⟩
  else
    let userMessage := jsTrim s.message
    let newMessage := chatUserMsg (s.chatHistory.length + 1) userMessage ts
    let tempId := s.chatHistory.length + 2
    let h2 := (s.chatHistory ++ [newMessage]) ++ [chatThinkingMsg tempId ts]
    match outcome with
    | .ok data =>
      let h3 := h2.filter (fun m => m.id ≠ tempId)
      if data.success then
        let botReply := chatBotReply tempId (data.message.getD "undefined") ts
        ⟨{ s with message := "", isLoading := false, chatHistory := h3 ++ [botReply] },
          ["POST /chat"], []⟩
      else
        let errorReply := chatErrorReply tempId (chatServerErrorText data.message) ts
        ⟨{ s with message := "", isLoading := false, chatHistory := h3 ++ [errorReply] },
          ["POST /chat"], []⟩
    | .threw =>
      let h3 := h2.filter (fun m => m.id ≠ tempId)
      let errorReply := chatErrorReply tempId chatNetworkErrorText ts
      ⟨{ s with message := "", isLoading := false, chatHistory := h3 ++ [errorReply] },
        ["POST /chat"], []⟩

/-- `checkApiStatus` (ChatScreen.tsx lines 53-97).  The id of the appended
system message is computed from the *closure's* snapshot of `chatHistory`
(the first-render state), not from the current history. -/
def checkApiStatus (s : ChatState) (ts : String) (res : HealthOutcome) :
    ChatState × List String :=
  if !s.healthPending then (s, [])
  else
    match res with
    | .ok st =>
      if st = "available" then
        ({ s with apiAvailable := true, healthPending := false }, [])
      else
        let m : ChatMsg :=
          { id := s.healthSnapshot.length + 1, sender := "bot",
            message := "⚠️ 注意：FitMirror Agent当前不可用，聊天功能受限。您仍然可以使用动作分析功能。",
            timestamp := ts, isWarning := true }
        ({ s with
            apiAvailable := false, healthPending := false,
            chatHistory := s.chatHistory ++ [m] }, [])
    | .threw =>
      let m : ChatMsg :=
        { id := s.healthSnapshot.length + 1, sender := "bot",
          message := "⚠️ 无法连接到FitMirror服务器，请确保服务器已启动并且网络连接正常。聊天功能暂时不可用，但您可以尝试使用动作分析功能。",
          timestamp := ts, isError := true }
      ({ s with
          apiAvailable := false, healthPending := false,
          chatHistory := s.chatHistory ++ [m] }, ["连接失败"])

/-- Asynchronous events that can hit a mounted `ChatScreen`: the user sends
some input, or the pending `/health` check resolves. -/
inductive ChatEvent where
  | send (input ts : String) (outcome : ChatFetchOutcome)
  | health (ts : String) (res : HealthOutcome)

def applyChatEvent (s : ChatState) (e : ChatEvent) : ChatState :=
  match e with
  | .send input ts outcome => (sendMessage { s with message := input } ts outcome).state
  | .health ts res => (checkApiStatus s ts res).1

/-- State of the chat screen after a sequence of events from mount. -/
def chatRun (ts0 : String) (evs : List ChatEvent) : ChatState :=
  evs.foldl applyChatEvent (chatInit ts0)

/-- Number of error-flagged messages in a history. -/
def errorCount (h : List ChatMsg) : Nat :=
  (h.filter (fun m => m.isError)).length

/-! ## WorkoutsScreen data model -/

/-- The API base URL of WorkoutsScreen.tsx. -/
def workoutsApiBaseUrl : String := "http://10.38.86.85:5000"

/-- One entry of `errors_detected` (the `ExerciseError` interface). -/
structure ExerciseError where
  type : String
  count : ℤ
  first_timestamp : ℚ
deriving DecidableEq

/-- The `AnalysisResult` interface of WorkoutsScreen.tsx.  Optional fields
are `none` when absent from the JSON. -/
structure AnalysisResult where
  success : Bool
  message : String
  exercise_type : String
  counter : ℤ
  processed_frames : Option Nat := none
  errors_detected : List ExerciseError
  report_path : Option String := none
  uploaded_video_path : Option String := none
  report_url : Option String := none
deriving DecidableEq

/-- Outcome of one `apiRequest` call, seen from the client: the request
timed out (the `setTimeout` fired), the fetch itself rejected, the response
was non-2xx, the body failed to parse, or a parsed body `a` came back. -/
inductive ApiOutcome (α : Type) where
  | timeout
  | netError (msg : String)
  | badStatus (status : Nat) (text : String)
  | badJson (msg : String)
  | ok (a : α)
deriving DecidableEq

/-- `apiRequest` (WorkoutsScreen.tsx lines 28-67).  Returns the settled
promise value together with whether `controller.abort()` was invoked
(which happens exactly when the timeout elapses). -/
def apiRequest {α : Type} (o : ApiOutcome α) : Except String α × Bool :=
  match o with
  | .timeout => (.error "请求超时，请检查网络连接或服务器状态", true)
  | .netError e => (.error e, false)
  | .badStatus st txt => (.error ("API错误 (" ++ toString st ++ "): " ++ txt), false)
  | .badJson e => (.error e, false)
  | .ok a => (.ok a, false)

/-- The `EXERCISE_NAMES` lookup with its `|| exerciseType` fallback. -/
def EXERCISE_NAMES : List (String × String) :=
  [("squat", "深蹲"), ("pushup", "俯卧撑"), ("situp", "仰卧起坐"),
   ("crunch", "卷腹"), ("jumping_jack", "开合跳"), ("plank", "平板支撑")]

def exerciseNameFor (t : String) : String :=
  ((EXERCISE_NAMES.find? (fun p => p.1 == t)).map (fun p => p.2)).getD t

/-- The `TEST_VIDEOS` map (only presence of a key matters to the logic). -/
def TEST_VIDEOS : List (String × String) :=
  [("squat", "https://storage.googleapis.com/gtv-videos-bucket/sample/ForBiggerBlazes.mp4"),
   ("pushup", "https://storage.googleapis.com/gtv-videos-bucket/sample/ForBiggerEscapes.mp4"),
   ("situp", "https://storage.googleapis.com/gtv-videos-bucket/sample/ForBiggerFun.mp4"),
   ("jumping_jack", "https://storage.googleapis.com/gtv-videos-bucket/sample/ForBiggerJoyrides.mp4"),
   ("plank", "https://storage.googleapis.com/gtv-videos-bucket/sample/ForBiggerMeltdowns.mp4")]

def testVideoFor (t : String) : Option String :=
  (TEST_VIDEOS.find? (fun p => p.1 == t)).map (fun p => p.2)

/-- The `useState` state of `WorkoutsScreen`. -/
structure WorkoutsState where
  openWorkout : Option String := none
  isLoading : Bool := false
  modalVisible : Bool := false
  selectedExercise : String := "squat"
  analysisResult : Option AnalysisResult := none
  showResult : Bool := false
  reportHtml : Option String := none
  showReportModal : Bool := false
deriving DecidableEq

/-- Result of a WorkoutsScreen handler: post-state, alerts shown as
(title, body) pairs, and how many `POST /analyze-exercise` requests the
invocation issued. -/
structure WorkoutsEffect where
  state : WorkoutsState
  alerts : List (String × String)
  analyzeRequests : Nat
deriving DecidableEq

/-- Outcome of the secondary `fetch(data.report_url)` inside `uploadVideo`. -/
inductive ReportFetchOutcome where
  | ok (html : String)
  | badStatus (status : Nat)
  | threw (msg : String)
deriving DecidableEq

/-- The `reportHtml` value stored for a given `report_url` fetch outcome
(WorkoutsScreen.tsx lines 262-274). -/
def reportHtmlFor (url : String) (o : ReportFetchOutcome) : String :=
  match o with
  | .ok html => html
  | .badStatus st =>
    "<html><body><h1>加载报告失败</h1><p>无法从 " ++ url ++
      " 加载报告内容。状态码: " ++ toString st ++ "</p></body></html>"
  | .threw m =>
    "<html><body><h1>加载报告出错</h1><p>尝试从 " ++ url ++
      " 加载报告时发生错误: " ++ m ++ "</p></body></html>"

/-- The `reportHtml` placeholder stored when only `report_path` is present
(WorkoutsScreen.tsx line 277). -/
def reportPathHtml (path : String) : String :=
  "<html><body><h1>报告已生成 (本地路径)</h1><p>报告文件位于服务器路径: " ++ path ++
    "</p><p>请联系管理员配置服务器以通过URL访问此报告，或在后续版本中实现应用内查看功能。</p></body></html>"

/-- `uploadVideo` (WorkoutsScreen.tsx lines 233-292).  `fileExists` is the
result of `FileSystem.getInfoAsync`; `out` the outcome of the
`/analyze-exercise` request (only consulted when the file exists); `rep`
the outcome of the secondary report fetch (only consulted when the
response carries a truthy `report_url`). -/
def uploadVideo (s : WorkoutsState) (fileExists : Bool)
    (out : ApiOutcome AnalysisResult) (rep : ReportFetchOutcome) : WorkoutsEffect :=
  let s1 := { s with
    isLoading := true, modalVisible := false,
    reportHtml := none, showReportModal := false }
  if !fileExists then
    ⟨{ s1 with isLoading := false }, [("错误", "文件不存在")], 0⟩
  else
    match (apiRequest out).1 with
    | .error e =>
      ⟨{ s1 with isLoading := false },
        [("错误", if e.isEmpty then "上传或分析视频时出错，请检查网络连接和服务器状态" else e)], 1⟩
    | .ok data =>
      if data.success then
        let s2 := { s1 with analysisResult := some data, showResult := true }
        let s3 :=
          if jsTruthy data.report_url then
            { s2 with reportHtml := some (reportHtmlFor (data.report_url.getD "") rep) }
          else if jsTruthy data.report_path then
            { s2 with reportHtml := some (reportPathHtml (data.report_path.getD "")) }
          else s2
        ⟨{ s3 with isLoading := false }, [], 1⟩
      else
        ⟨{ s1 with isLoading := false },
          [("分析失败", if data.message.isEmpty then "未知错误" else data.message)], 1⟩

/-- The condition under which the 查看分析报告 button is rendered
(WorkoutsScreen.tsx lines 444 and 473): the result card is shown and
`(analysisResult.report_path || analysisResult.report_url) && reportHtml`
is truthy. -/
def reportButtonRendered (s : WorkoutsState) : Bool :=
  s.showResult &&
    (match s.analysisResult with
     | none => false
     | some r => (jsTruthy r.report_path || jsTruthy r.report_url) && jsTruthy s.reportHtml)

/-- `checkServerHealth` (WorkoutsScreen.tsx lines 153-173): the alerts it
pops for a given `/health` outcome (the body's `agent_status` string). -/
def checkServerHealth (out : ApiOutcome String) : List (String × String) :=
  match (apiRequest out).1 with
  | .ok st =>
    if st ≠ "available" then
      [("服务器警告", "动作分析功能可能不可用，请联系管理员检查服务器状态。")]
    else []
  | .error _ =>
    [("连接错误", "无法连接到服务器 (" ++ workoutsApiBaseUrl ++
        ")，动作分析功能将不可用。请检查网络连接或服务器状态。")]

/-! ### The simulated (mock) analysis result -/

/-- `possibleErrors[exerciseType] || []` of `simulateAnalysisResult`. -/
def possibleErrors (t : String) : List String :=
  if t == "squat" then ["膝盖内扣", "重心过于靠前", "下蹲不够深"]
  else if t == "pushup" then ["肩部下沉", "臀部抬高", "手肘角度不正确"]
  else if t == "situp" then ["躯干扭转", "头部前屈", "动作不完整"]
  else if t == "jumping_jack" then ["动作不对称", "膝盖弯曲", "手臂抬起不够高"]
  else if t == "plank" then ["臀部抬高", "肩部下沉", "身体不平直"]
  else []

def uriHexDigit (n : Nat) : Char :=
  if n < 10 then Char.ofNat (48 + n) else Char.ofNat (55 + n)

def percentByte (b : Nat) : List Char :=
  ['%', uriHexDigit (b / 16), uriHexDigit (b % 16)]

/-- UTF-8 bytes of a codepoint. -/
def utf8Bytes (c : Char) : List Nat :=
  let n := c.toNat
  if n < 128 then [n]
  else if n < 2048 then [192 + n / 64, 128 + n % 64]
  else if n < 65536 then [224 + n / 4096, 128 + (n / 64) % 64, 128 + n % 64]
  else [240 + n / 262144, 128 + (n / 4096) % 64, 128 + (n / 64) % 64, 128 + n % 64]

/-- Characters `encodeURIComponent` leaves unescaped (codepoint 39 is the
apostrophe). -/
def isUriUnreserved (c : Char) : Bool :=
  c.isAlpha || c.isDigit ||
  c == '-' || c == '_' || c == '.' || c == '!' || c == '~' ||
  c == '*' || c.toNat == 39 || c == '(' || c == ')'

/-- JavaScript `encodeURIComponent`. -/
def encodeURIComponent (s : String) : String :=
  String.mk (s.data.foldr
    (fun c acc => (if isUriUnreserved c then [c] else (utf8Bytes c).foldr
      (fun b a => percentByte b ++ a) []) ++ acc) [])

/-- `Math.floor(Math.random() * 10) + 5`: the mock repetition counter
drawn from a random `r`. -/
def mockCounter (r : ℚ) : ℤ := ⌊r * 10⌋ + 5

/-- The mock `errors_detected` list.  `rand` is the stream of
`Math.random()` draws in evaluation order: draw 1 decides the
`Math.random() > 0.5` branch, draw 2 gives `numErrors`, and draws
`3 + 2*i` / `4 + 2*i` give the count and first timestamp of error `i`. -/
def mockErrors (t : String) (rand : Nat → ℚ) : List ExerciseError :=
  if rand 1 > 1 / 2 then
    let errors := possibleErrors t
    if errors.isEmpty then []
    else
      let numErrors := (⌊rand 2 * 2⌋ + 1).toNat
      ((List.range errors.length).take numErrors).map (fun i =>
        { type := (errors.get? i).getD "",
          count := ⌊rand (3 + 2 * i) * 5⌋ + 1,
          first_timestamp := rand (4 + 2 * i) * 10 })
  else []

/-- The simulated report HTML (WorkoutsScreen.tsx lines 389-399); literal
braces of the inline CSS are written with their escape codes. -/
def simulatedHtmlFor (t : String) (errs : List ExerciseError) : String :=
  let header := "<html><head><meta name=\"viewport\" content=\"width=device-width, initial-scale=1.0\"><style>body\x7bfont-family: sans-serif; padding: 15px;\x7d h1\x7bcolor: #333;\x7d h2\x7bcolor:#555;\x7d ul\x7blist-style-type: none; padding-left:0;\x7d li\x7bbackground-color:#f0f0f0; margin-bottom:5px; padding:8px; border-radius:4px;\x7d</style></head><body><h1>模拟报告 (" ++
    exerciseNameFor t ++ ")</h1><p>这是模拟生成的分析报告。</p><h2>检测到的问题:</h2>"
  let mid :=
    if !errs.isEmpty then
      "<ul>" ++ String.join (errs.map (fun e =>
        "<li>" ++ e.type ++ " (出现 " ++ toString e.count ++ " 次)</li>")) ++ "</ul>"
    else "<p>动作标准，未检测到明显问题！</p>"
  header ++ mid ++ "</body></html>"

/-- `simulateAnalysisResult`'s mock record (WorkoutsScreen.tsx lines
352-413) after its final `report_url` overwrite: draw 0 of `rand` gives
the counter, the remaining draws the error list. -/
def simulateAnalysisResult (t : String) (rand : Nat → ℚ) : AnalysisResult :=
  let errs := mockErrors t rand
  { success := true,
    message := "分析完成，这是模拟数据。",
    exercise_type := t,
    counter := mockCounter (rand 0),
    processed_frames := some 300,
    errors_detected := errs,
    report_url := some ("data:text/html," ++ encodeURIComponent (simulatedHtmlFor t errs)) }

/-- State effect of `simulateAnalysisResult`, observed after its 1.5 s
`setTimeout` has fired.  The stored `reportHtml` is
`decodeURIComponent` of the data-URL payload, i.e. the simulated HTML
itself. -/
def simulateApply (s : WorkoutsState) (t : String) (rand : Nat → ℚ) : WorkoutsState :=
  let mock := simulateAnalysisResult t rand
  { s with
    modalVisible := false, showReportModal := false,
    reportHtml := some (simulatedHtmlFor t mock.errors_detected),
    analysisResult := some mock, showResult := true, isLoading := false }

/-- `useTestVideo` (WorkoutsScreen.tsx lines 295-349): if no test video is
mapped, simulate immediately (no request); otherwise issue the request and
fall back to the simulated result when it throws or reports failure. -/
def useTestVideo (s : WorkoutsState) (t : String)
    (out : ApiOutcome AnalysisResult) (rand : Nat → ℚ) : WorkoutsEffect :=
  let s1 := { s with modalVisible := false, isLoading := true }
  match testVideoFor t with
  | none => ⟨simulateApply s1 t rand, [], 0⟩
  | some _ =>
    match (apiRequest out).1 with
    | .ok data =>
      if data.success then
        ⟨{ s1 with analysisResult := some data, showResult := true, isLoading := false },
          [], 1⟩
      else ⟨simulateApply s1 t rand, [], 1⟩
    | .error _ => ⟨simulateApply s1 t rand, [], 1⟩

/-- Does an `/analyze-exercise` outcome send `useTestVideo` to its mock
fallback (it threw, or it parsed with `success` false)? -/
def analyzeFallback (out : ApiOutcome AnalysisResult) : Bool :=
  match out with
  | .ok data => !data.success
  | _ => true

/-! ## ProfileScreen data model -/

/-- The `Report` interface of ProfileScreen.tsx. -/
structure Report where
  filename : String
  exercise_type : String
  date_str : String
  report_url : String
  timestamp : ℚ
deriving DecidableEq

/-- The `useState` state of `ProfileScreen`. -/
structure ProfileState where
  reports : List Report
  loading : Bool
  isReportModalVisible : Bool
  currentReportUrl : Option String
deriving DecidableEq

/-- Outcome of the `/get-analysis-reports` fetch: network error, non-2xx
status, or a parsed body whose `reports` field is `some rs` exactly when
it is an array. -/
inductive ReportsOutcome where
  | netError
  | badStatus (status : Nat) (text : String)
  | body (success : Bool) (reports : Option (List Report))
deriving DecidableEq

/-- Is the outcome anything other than a 2xx body with `success` and an
array `reports` field? -/
def reportsFailure (out : ReportsOutcome) : Bool :=
  match out with
  | .body true (some _) => false
  | _ => true

/-- `fetchReports` (ProfileScreen.tsx lines 35-61): post-state and alerts.
Every failure path ends in `setReports([])`; `setLoading(false)` runs in
the `finally` block; no alert is ever shown. -/
def fetchReports (s : ProfileState) (out : ReportsOutcome) : ProfileState × List String :=
  match out with
  | .netError => ({ s with reports := [], loading := false }, [])
  | .badStatus _ _ => ({ s with reports := [], loading := false }, [])
  | .body success reps =>
    match reps with
    | some rs =>
      if success then ({ s with reports := rs, loading := false }, [])
      else ({ s with reports := [], loading := false }, [])
    | none => ({ s with reports := [], loading := false }, [])

/-- `handleReportItemPress` (ProfileScreen.tsx lines 72-80): open the modal
when `report.report_url` is truthy, otherwise show an alert. -/
def handleReportItemPress (s : ProfileState) (report : Report) : ProfileState × List String :=
  if !report.report_url.isEmpty then
    ({ s with currentReportUrl := some report.report_url, isReportModalVisible := true }, [])
  else
    (s, ["无法打开报告"])

/-! ## Shared helper lemmas -/

/-- A string of whitespace characters trims to the empty string. -/
theorem jsTrim_eq_empty_of_whitespace (s : String)
    (h : ∀ c ∈ s.data, isJsWhitespace c = true) : jsTrim s = "" := by
  unfold jsTrim
  have h1 : s.data.dropWhile isJsWhitespace = [] := by
    rw [List.dropWhile_eq_nil_iff]
    exact fun c hc => h c hc
  rw [h1]
  rfl

/-! ## Claims -/

/-- Claim C6 counterexample: contrary to the claim that a timeout "merely
abandons waiting without cancelling the in-flight request", `apiRequest`
invokes `AbortController.abort()` when the timeout elapses (second
component `true`), and the promise rejects with the timeout error. -/
theorem apiRequest_timeout_aborts_cex :
    (apiRequest (α := AnalysisResult) ApiOutcome.timeout).2 = true ∧
    (apiRequest (α := AnalysisResult) ApiOutcome.timeout).1 =
      Except.error "请求超时，请检查网络连接或服务器状态" :=
  ⟨rfl, rfl⟩

/-- Claim C6 (amended): `apiRequest` calls `AbortController.abort()` exactly
when the timeout elapses — so the client-side fetch *is* explicitly
cancelled on timeout — and in that case the caller sees the fixed timeout
error message. -/
theorem apiRequest_abort_iff_timeout {α : Type} (o : ApiOutcome α) :
    ((apiRequest o).2 = true ↔ o = ApiOutcome.timeout) ∧
    (apiRequest (ApiOutcome.timeout : ApiOutcome α)).1 =
      Except.error "请求超时，请检查网络连接或服务器状态" := by
  constructor
  · cases o <;> simp [apiRequest]
  · rfl

/-- Claim C10: every failing invocation of `fetchReports` (network error,
non-2xx status, or a body without `success=true` and an array `reports`
field) sets the reports state to the empty list — discarding any previously
fetched list — and sets `loading` to `false`. -/
theorem fetchReports_failure_clears_reports (s : ProfileState) (out : ReportsOutcome)
    (hfail : reportsFailure out = true) :
    (fetchReports s out).1.reports = [] ∧ (fetchReports s out).1.loading = false := by
  cases out with
  | netError => exact ⟨rfl, rfl⟩
  | badStatus st txt => exact ⟨rfl, rfl⟩
  | body success reps =>
    cases reps with
    | none => exact ⟨rfl, rfl⟩
    | some rs =>
      cases success with
      | false => exact ⟨rfl, rfl⟩
      | true => simp [reportsFailure] at hfail

def sampleReport : Report :=
  { filename := "squat_20240101.html", exercise_type := "squat",
    date_str := "2024-01-01",
    report_url := "http://10.38.86.85:5000/reports/squat_20240101.html",
    timestamp := 0 }

def profileBefore : ProfileState :=
  { reports := [sampleReport], loading := true,
    isReportModalVisible := false, currentReportUrl := none }

/-- Witness for C10: a network error wipes a previously non-empty list. -/
theorem fetchReports_failure_clears_reports_w :
    (fetchReports profileBefore ReportsOutcome.netError).1.reports = [] ∧
    (fetchReports profileBefore ReportsOutcome.netError).1.loading = false :=
  fetchReports_failure_clears_reports profileBefore ReportsOutcome.netError rfl

/-- Claim C9: on an input that is empty or all whitespace, `sendMessage` is
a no-op: the state is unchanged, no request is issued and no alert is
shown. -/
theorem sendMessage_blank_input_noop (s : ChatState) (ts : String)
    (outcome : ChatFetchOutcome)
    (h : ∀ c ∈ s.message.data, isJsWhitespace c = true) :
    sendMessage s ts outcome = ⟨s, [], []⟩ := by
  unfold sendMessage
  rw [jsTrim_eq_empty_of_whitespace s.message h]
  simp

/-- Witness for C9 at the three-space input. -/
theorem sendMessage_blank_input_noop_w :
    sendMessage { chatInit "08:00" with message := "   " } "08:01" ChatFetchOutcome.threw
      = ⟨{ chatInit "08:00" with message := "   " }, [], []⟩ :=
  sendMessage_blank_input_noop _ _ _ (by decide)

/-- Claim C7: id uniqueness is not an invariant: after the user sends one
message (which fails) and the pending `/health` check then fails — its
closure still sees the initial one-element history, so it appends id 2 —
the history carries two messages with id 2. -/
theorem chat_message_ids_not_unique :
    ∃ evs : List ChatEvent,
      ¬ (((chatRun "08:00" evs).chatHistory.map (fun m => m.id)).Nodup) :=
  ⟨[ChatEvent.send "你好" "08:01" ChatFetchOutcome.threw,
    ChatEvent.health "08:02" HealthOutcome.threw], by decide⟩

/-- Claim C4: when a successful analysis response carries neither a truthy
`report_url` nor a truthy `report_path`, `uploadVideo` stores no
`reportHtml` and the 查看分析报告 button is not rendered; and pressing a
profile report item whose `report_url` is empty leaves the state (and in
particular the report modal) unchanged and pops an alert instead. -/
theorem no_report_action_when_urls_absent
    (s : WorkoutsState) (data : AnalysisResult) (rep : ReportFetchOutcome)
    (sp : ProfileState) (r : Report)
    (hs : data.success = true)
    (hu : jsTruthy data.report_url = false)
    (hp : jsTruthy data.report_path = false)
    (hr : r.report_url = "") :
    reportButtonRendered (uploadVideo s true (ApiOutcome.ok data) rep).state = false
    ∧ (uploadVideo s true (ApiOutcome.ok data) rep).state.reportHtml = none
    ∧ (handleReportItemPress sp r).1 = sp
    ∧ (handleReportItemPress sp r).2 ≠ [] := by
  refine ⟨?_, ?_, ?_, ?_⟩
  · simp [uploadVideo, apiRequest, reportButtonRendered, hs, hu, hp]
  · simp [uploadVideo, apiRequest, hs, hu, hp]
  · have he : ("" : String).isEmpty = true := rfl
    simp [handleReportItemPress, hr, he]
  · have he : ("" : String).isEmpty = true := rfl
    simp [handleReportItemPress, hr, he]

def analysisNoReport : AnalysisResult :=
  { success := true, message := "分析完成", exercise_type := "squat",
    counter := 8, processed_frames := some 300, errors_detected := [] }

def reportNoUrl : Report :=
  { filename := "pushup_20240102.html", exercise_type := "pushup",
    date_str := "2024-01-02", report_url := "", timestamp := 1 }

/-- Witness for C4 at a concrete success response with both report fields
absent and a concrete report item with an empty URL. -/
theorem no_report_action_when_urls_absent_w :
    reportButtonRendered (uploadVideo {} true (ApiOutcome.ok analysisNoReport)
        (ReportFetchOutcome.ok "<html></html>")).state = false
    ∧ (uploadVideo {} true (ApiOutcome.ok analysisNoReport)
        (ReportFetchOutcome.ok "<html></html>")).state.reportHtml = none
    ∧ (handleReportItemPress profileBefore reportNoUrl).1 = profileBefore
    ∧ (handleReportItemPress profileBefore reportNoUrl).2 ≠ [] :=
  no_report_action_when_urls_absent {} analysisNoReport
    (ReportFetchOutcome.ok "<html></html>") profileBefore reportNoUrl rfl rfl rfl rfl

/-- Claim C5: whenever the backend request of `useTestVideo` fails (throws,
times out, or reports `success=false`), the screen falls back to the
locally generated mock result, whose counter is `⌊random*10⌋ + 5`, an
integer between 5 and 14 (hence non-negative); this holds for every
invocation, i.e. for every random draw in `[0,1)`. -/
theorem useTestVideo_fallback_mock_counter_bounds (s : WorkoutsState) (t : String)
    (out : ApiOutcome AnalysisResult) (rand : Nat → ℚ)
    (hfail : analyzeFallback out = true) (h0 : 0 ≤ rand 0) (h1 : rand 0 < 1) :
    (useTestVideo s t out rand).state.analysisResult = some (simulateAnalysisResult t rand)
    ∧ 5 ≤ (simulateAnalysisResult t rand).counter
    ∧ (simulateAnalysisResult t rand).counter ≤ 14 := by
  have hcounter : (simulateAnalysisResult t rand).counter = ⌊rand 0 * 10⌋ + 5 := by
    simp [simulateAnalysisResult, mockCounter]
  have hlow : (0 : ℤ) ≤ ⌊rand 0 * 10⌋ :=
    Int.floor_nonneg.mpr (mul_nonneg h0 (by norm_num))
  have hhigh : ⌊rand 0 * 10⌋ < 10 := by
    rw [Int.floor_lt]
    push_cast
    nlinarith
  refine ⟨?_, by omega, by omega⟩
  unfold useTestVideo
  cases htv : testVideoFor t with
  | none => simp [simulateApply]
  | some v =>
    cases out with
    | ok data =>
      have hds : data.success = false := by
        simpa [analyzeFallback] using hfail
      simp [apiRequest, hds, simulateApply]
    | timeout => simp [apiRequest, simulateApply]
    | netError e => simp [apiRequest, simulateApply]
    | badStatus st txt => simp [apiRequest, simulateApply]
    | badJson e => simp [apiRequest, simulateApply]

/-- Witness for C5 with the backend unreachable and the random draw 1/2. -/
theorem useTestVideo_fallback_mock_counter_bounds_w :
    (useTestVideo {} "squat" (ApiOutcome.netError "Network request failed")
        (fun _ => 1 / 2)).state.analysisResult
      = some (simulateAnalysisResult "squat" (fun _ => 1 / 2))
    ∧ 5 ≤ (simulateAnalysisResult "squat" (fun _ => 1 / 2)).counter
    ∧ (simulateAnalysisResult "squat" (fun _ => 1 / 2)).counter ≤ 14 :=
  useTestVideo_fallback_mock_counter_bounds {} "squat"
    (ApiOutcome.netError "Network request failed") (fun _ => 1 / 2)
    rfl (by norm_num) (by norm_num)

/-- Claim C8: for a `success=false` chat response carrying a message field,
the error reply appended to the history (as its last element) carries the
sanitised text, and that text contains none of the characters stripped by
`replace(/[*_#\x60]/g, '')`. -/
theorem chat_server_error_text_sanitized (s : ChatState) (ts m : String)
    (htrim : jsTrim s.message ≠ "") (hav : s.apiAvailable = true) :
    (sendMessage s ts (ChatFetchOutcome.ok ⟨false, some m⟩)).state.chatHistory.getLast?
      = some (chatErrorReply (s.chatHistory.length + 2) (chatServerErrorText (some m)) ts)
    ∧ ∀ c ∈ (chatServerErrorText (some m)).data, isMdChar c = false := by
  constructor
  · unfold sendMessage
    rw [if_neg htrim, hav]
    simp [List.getLast?_concat]
  · have hpre : ∀ c ∈ ("抱歉，处理您的请求时出现问题: " : String).data,
        isMdChar c = false := by decide
    intro c hc
    have hdata : (chatServerErrorText (some m)).data
        = ("抱歉，处理您的请求时出现问题: " : String).data
          ++ (removeMdChars (if jsTruthy (some m) then m else "未知错误")).data := by
      simp [chatServerErrorText, Option.getD]
    rw [hdata] at hc
    rcases List.mem_append.mp hc with h | h
    · exact hpre c h
    · have hmem := h
      rw [removeMdChars] at hmem
      have := List.of_mem_filter hmem
      simpa using this

/-- Witness for C8: a backend error message full of Markdown markers is
appended with all of them stripped. -/
theorem chat_server_error_text_sanitized_w :
    (sendMessage { chatInit "08:00" with message := "你好" } "08:01"
        (ChatFetchOutcome.ok ⟨false, some "**服务器`繁忙`**_#重试_"⟩)).state.chatHistory.getLast?
      = some (chatErrorReply 3 (chatServerErrorText (some "**服务器`繁忙`**_#重试_")) "08:01")
    ∧ ∀ c ∈ (chatServerErrorText (some "**服务器`繁忙`**_#重试_")).data, isMdChar c = false :=
  chat_server_error_text_sanitized { chatInit "08:00" with message := "你好" }
    "08:01" "**服务器`繁忙`**_#重试_" (by decide) rfl

/-- Claim C1 counterexample: for the successful response whose message field
is "**加油**", the stored bot message equals the field, but the text
actually displayed in the chat bubble is the Markdown-stripped "加油",
which differs from the response's message field. -/
theorem chat_markdown_display_differs_cex :
    ((sendMessage { chatInit "08:00" with message := "你好" } "08:01"
        (ChatFetchOutcome.ok ⟨true, some "**加油**"⟩)).state.chatHistory.getLast?).map
        (fun mg => (mg.message, displayedText mg))
      = some ("**加油**", "加油")
    ∧ ("加油" : String) ≠ "**加油**" :=
  ⟨by decide, by decide⟩

/-- Claim C1 (amended): on a `success=true` response carrying message `m`,
the bot reply appended (as last element of the history) stores exactly `m`,
and the text displayed for it is `renderMarkdown m` — the result of the
Markdown-stripping replacements — which can differ from `m` when `m`
contains Markdown markers. -/
theorem chat_success_reply_stored_and_rendered (s : ChatState) (ts m : String)
    (htrim : jsTrim s.message ≠ "") (hav : s.apiAvailable = true) :
    (sendMessage s ts (ChatFetchOutcome.ok ⟨true, some m⟩)).state.chatHistory.getLast?
      = some (chatBotReply (s.chatHistory.length + 2) m ts)
    ∧ displayedText (chatBotReply (s.chatHistory.length + 2) m ts) = renderMarkdown m := by
  constructor
  · unfold sendMessage
    rw [if_neg htrim, hav]
    simp [List.getLast?_concat]
  · rfl

/-- Witness for the amended C1 at a concrete state and plain message. -/
theorem chat_success_reply_stored_and_rendered_w :
    (sendMessage { chatInit "08:00" with message := "你好" } "08:01"
        (ChatFetchOutcome.ok ⟨true, some "多喝水"⟩)).state.chatHistory.getLast?
      = some (chatBotReply 3 "多喝水" "08:01")
    ∧ displayedText (chatBotReply 3 "多喝水" "08:01") = renderMarkdown "多喝水" :=
  chat_success_reply_stored_and_rendered { chatInit "08:00" with message := "你好" }
    "08:01" "多喝水" (by decide) rfl

/-- Claim C2: when the `/chat` fetch throws, `sendMessage` removes the
temporary loading message and appends exactly one error-flagged reply: the
final history is the old one plus the user message and the error reply, it
contains exactly one more error-flagged message than before the call, and
the temporary loading message is gone.  The id hypothesis says no
pre-existing message already carries the temporary id (true of every
history the screen builds sequentially). -/
theorem chat_fetch_failure_appends_one_error (s : ChatState) (ts : String)
    (htrim : jsTrim s.message ≠ "") (hav : s.apiAvailable = true)
    (hid : ∀ m ∈ s.chatHistory, m.id < s.chatHistory.length + 2) :
    (sendMessage s ts ChatFetchOutcome.threw).state.chatHistory
      = s.chatHistory
        ++ [chatUserMsg (s.chatHistory.length + 1) (jsTrim s.message) ts,
            chatErrorReply (s.chatHistory.length + 2) chatNetworkErrorText ts]
    ∧ errorCount (sendMessage s ts ChatFetchOutcome.threw).state.chatHistory
        = errorCount s.chatHistory + 1
    ∧ chatThinkingMsg (s.chatHistory.length + 2) ts
        ∉ (sendMessage s ts ChatFetchOutcome.threw).state.chatHistory := by
  have hne : s.chatHistory.length + 1 ≠ s.chatHistory.length + 2 := by omega
  have hself : s.chatHistory.filter
      (fun m => decide (m.id ≠ s.chatHistory.length + 2)) = s.chatHistory :=
    List.filter_eq_self.mpr (fun m hm => decide_eq_true (Nat.ne_of_lt (hid m hm)))
  have hmain : (sendMessage s ts ChatFetchOutcome.threw).state.chatHistory
      = s.chatHistory
        ++ [chatUserMsg (s.chatHistory.length + 1) (jsTrim s.message) ts,
            chatErrorReply (s.chatHistory.length + 2) chatNetworkErrorText ts] := by
    unfold sendMessage
    rw [if_neg htrim, hav]
    simp [List.filter_append, hself, chatUserMsg, chatThinkingMsg, hne]
    exact fun a ha => Nat.ne_of_lt (hid a ha)
  refine ⟨hmain, ?_, ?_⟩
  · rw [hmain]
    unfold errorCount
    simp [List.filter_append, chatUserMsg, chatErrorReply]
  · rw [hmain]
    intro hmem
    rcases List.mem_append.mp hmem with h | h
    · have := hid _ h
      simp [chatThinkingMsg] at this
    · simp [chatThinkingMsg, chatUserMsg, chatErrorReply, ChatMsg.mk.injEq] at h

/-- Witness for C2 from the freshly mounted screen with input "你好". -/
theorem chat_fetch_failure_appends_one_error_w :
    (sendMessage { chatInit "08:00" with message := "你好" } "08:01"
        ChatFetchOutcome.threw).state.chatHistory
      = [chatWelcomeMsg "08:00"]
        ++ [chatUserMsg 2 (jsTrim "你好") "08:01",
            chatErrorReply 3 chatNetworkErrorText "08:01"]
    ∧ errorCount (sendMessage { chatInit "08:00" with message := "你好" } "08:01"
          ChatFetchOutcome.threw).state.chatHistory
        = errorCount [chatWelcomeMsg "08:00"] + 1
    ∧ chatThinkingMsg 3 "08:01"
        ∉ (sendMessage { chatInit "08:00" with message := "你好" } "08:01"
            ChatFetchOutcome.threw).state.chatHistory :=
  chat_fetch_failure_appends_one_error { chatInit "08:00" with message := "你好" }
    "08:01" (by decide) rfl (by decide)

/-- Claim C3 counterexample: `useTestVideo` issues a network call via
`apiRequest`; when it fails, the handler shows no alert and appends no
error-flagged message — it silently substitutes the locally generated mock
result — contradicting "every failure ... is converted into either a
user-visible alert or an inline error-flagged chat message". -/
theorem useTestVideo_failure_no_alert_cex :
    (useTestVideo {} "squat" (ApiOutcome.netError "Network request failed")
        (fun _ => 1 / 2)).alerts = []
    ∧ (useTestVideo {} "squat" (ApiOutcome.netError "Network request failed")
        (fun _ => 1 / 2)).analyzeRequests = 1
    ∧ (useTestVideo {} "squat" (ApiOutcome.netError "Network request failed")
        (fun _ => 1 / 2)).state.showResult = true :=
  ⟨rfl, rfl, rfl⟩

/-- Claim C3 (amended): every network-call failure is caught at its call
site and none is retried (each handler issues its request at most once);
`sendMessage`, `checkApiStatus`, `uploadVideo` and `checkServerHealth`
convert the failure into an inline error-flagged message or an alert, but
`fetchReports` silently clears the report list and `useTestVideo` silently
falls back to the mock result, with no alert in either case. -/
theorem network_failure_handling_catalog :
    (∀ (s : ChatState) (ts : String), jsTrim s.message ≠ "" → s.apiAvailable = true →
        (sendMessage s ts ChatFetchOutcome.threw).alerts = []
        ∧ (sendMessage s ts ChatFetchOutcome.threw).state.chatHistory.getLast?
            = some (chatErrorReply (s.chatHistory.length + 2) chatNetworkErrorText ts))
    ∧ (∀ (s : ChatState) (ts : String), s.healthPending = true →
        (checkApiStatus s ts HealthOutcome.threw).2 = ["连接失败"])
    ∧ (∀ (s : WorkoutsState) (out : ApiOutcome AnalysisResult)
          (rep : ReportFetchOutcome) (e : String),
        (apiRequest out).1 = Except.error e →
        (uploadVideo s true out rep).alerts ≠ []
        ∧ (uploadVideo s true out rep).analyzeRequests = 1)
    ∧ (∀ (out : ApiOutcome String) (e : String),
        (apiRequest out).1 = Except.error e → checkServerHealth out ≠ [])
    ∧ (∀ (s : ProfileState) (out : ReportsOutcome),
        reportsFailure out = true → (fetchReports s out).2 = [])
    ∧ (∀ (s : WorkoutsState) (t : String) (out : ApiOutcome AnalysisResult)
          (rand : Nat → ℚ),
        analyzeFallback out = true → (useTestVideo s t out rand).alerts = [])
    ∧ (∀ (s : ChatState) (ts : String) (outcome : ChatFetchOutcome),
        (sendMessage s ts outcome).requests.length ≤ 1)
    ∧ (∀ (s : WorkoutsState) (f : Bool) (out : ApiOutcome AnalysisResult)
          (rep : ReportFetchOutcome),
        (uploadVideo s f out rep).analyzeRequests ≤ 1)
    ∧ (∀ (s : WorkoutsState) (t : String) (out : ApiOutcome AnalysisResult)
          (rand : Nat → ℚ),
        (useTestVideo s t out rand).analyzeRequests ≤ 1) := by
  refine ⟨?_, ?_, ?_, ?_, ?_, ?_, ?_, ?_, ?_⟩
  · intro s ts htrim hav
    constructor
    · unfold sendMessage
      rw [if_neg htrim, hav]
      simp
    · unfold sendMessage
      rw [if_neg htrim, hav]
      simp [List.getLast?_concat]
  · intro s ts hp
    simp [checkApiStatus, hp]
  · intro s out rep e herr
    cases out with
    | ok a => simp [apiRequest] at herr
    | timeout => exact ⟨by simp [uploadVideo, apiRequest], rfl⟩
    | netError m => exact ⟨by simp [uploadVideo, apiRequest], rfl⟩
    | badStatus st txt => exact ⟨by simp [uploadVideo, apiRequest], rfl⟩
    | badJson m => exact ⟨by simp [uploadVideo, apiRequest], rfl⟩
  · intro out e herr
    cases out with
    | ok a => simp [apiRequest] at herr
    | timeout => simp [checkServerHealth, apiRequest]
    | netError m => simp [checkServerHealth, apiRequest]
    | badStatus st txt => simp [checkServerHealth, apiRequest]
    | badJson m => simp [checkServerHealth, apiRequest]
  · intro s out hfail
    cases out with
    | netError => rfl
    | badStatus st txt => rfl
    | body success reps =>
      cases reps with
      | none => rfl
      | some rs =>
        cases success with
        | false => rfl
        | true => simp [reportsFailure] at hfail
  · intro s t out rand hfail
    unfold useTestVideo
    cases htv : testVideoFor t with
    | none => rfl
    | some v =>
      cases out with
      | ok data =>
        have hds : data.success = false := by simpa [analyzeFallback] using hfail
        simp [apiRequest, hds]
      | timeout => rfl
      | netError e => rfl
      | badStatus st txt => rfl
      | badJson e => rfl
  · intro s ts outcome
    unfold sendMessage
    by_cases h1 : jsTrim s.message = ""
    · simp [h1]
    · rw [if_neg h1]
      by_cases h2 : s.apiAvailable
      · rw [h2]
        cases outcome with
        | ok data =>
          by_cases h3 : data.success <;> simp [h3]
        | threw => simp
      · simp [Bool.not_eq_true] at h2
        simp [h2]
  · intro s f out rep
    unfold uploadVideo
    by_cases hf : f
    · subst hf
      cases hres : (apiRequest out).1 with
      | error e => simp [hres]
      | ok data =>
        by_cases h3 : data.success <;> simp [hres, h3]
    · simp [Bool.not_eq_true] at hf
      simp [hf]
  · intro s t out rand
    unfold useTestVideo
    cases testVideoFor t with
    | none => simp
    | some v =>
      cases hres : (apiRequest out).1 with
      | error e => simp
      | ok data =>
        by_cases h3 : data.success <;> simp [h3]

/-- Witness for the amended C3: the concrete `sendMessage` failure from the
fresh screen shows no alert and appends the error-flagged reply. -/
theorem network_failure_handling_catalog_w :
    (sendMessage { chatInit "08:00" with message := "你好" } "08:01"
        ChatFetchOutcome.threw).alerts = []
    ∧ (sendMessage { chatInit "08:00" with message := "你好" } "08:01"
        ChatFetchOutcome.threw).state.chatHistory.getLast?
      = some (chatErrorReply 3 chatNetworkErrorText "08:01") :=
  network_failure_handling_catalog.1 { chatInit "08:00" with message := "你好" }
    "08:01" (by decide) rfl
